import Mathlib

/-!
Verification of the Jenkins verification utility (04-verify-jenkins.py).

The script is a linear program: it loads a key=value environment file into
the process environment, reads the admin password from it, and then performs
two network calls (a CSRF-crumb GET followed by a scriptText POST), printing
diagnostics along the way.  We embed it shallowly: the file system is an
`Option (List String)` (missing file, or the file split into lines), the
process environment is the ordered list of set operations, and the outcomes
of the two network calls are inputs drawn from small inductive types that
enumerate exactly the cases the source distinguishes (HTTP response with a
status and body, `urllib.error.URLError`, any other exception; for the crumb
response the JSON-decoding step either yields the two fields or raises).
Printed lines are accumulated in order.
-/

namespace JenkinsVerify

/-! ## Python string primitives used by the script -/

/-- Whitespace characters stripped by Python `str.strip()` (ASCII range). -/
def pyIsSpace (c : Char) : Bool :=
  c = ' ' || c = '\t' || c = '\n' || c = '\r' || c = '\x0b' || c = '\x0c'

/-- Drop leading and trailing characters satisfying `p`. -/
def stripWhile (p : Char → Bool) (s : String) : String :=
  String.mk (((s.toList.dropWhile p).reverse.dropWhile p).reverse)

/-- Python `line.strip()`. -/
def pyStrip (s : String) : String := stripWhile pyIsSpace s

/-- The characters stripped by `value.strip('"\x27')`: double or single quote. -/
def isQuoteChar (c : Char) : Bool := c = '"' || c = Char.ofNat 39

/-- Python `value.strip('"\x27')`. -/
def stripQuotes (s : String) : String := stripWhile isQuoteChar s

/-- Python `line.startswith('#')`. -/
def startsWithHash (s : String) : Bool :=
  match s.toList with
  | [] => false
  | c :: _ => c == '#'

/-- Python `line.split('=', 1)` for a line known to contain `=`:
the part before the first `=` and the part after it. -/
def splitFirstEq (s : String) : String × String :=
  (String.mk (s.toList.takeWhile (fun c => c != '=')),
   String.mk ((s.toList.dropWhile (fun c => c != '=')).drop 1))

/-- Boolean prefix test on strings, via the underlying character lists. -/
def strStartsWith (s pre : String) : Bool := List.isPrefixOf pre.toList s.toList

/-- Boolean substring test on character lists. -/
def hasSubList (sub : List Char) : List Char → Bool
  | [] => sub.isEmpty
  | c :: rest => List.isPrefixOf sub (c :: rest) || hasSubList sub rest

/-- Boolean substring test on strings. -/
def strContainsSub (s sub : String) : Bool := hasSubList sub.toList s.toList

/-! ## The process environment (`os.environ`) -/

/-- The environment as the ordered list of `os.environ[key] = value`
assignments performed so far (the initial inherited environment included). -/
abbrev Env : Type := List (String × String)

/-- Python `os.getenv(k)`: the value of the last assignment to `k`, if any. -/
def osGetenv (env : Env) (k : String) : Option String :=
  (env.reverse.find? (fun p => p.1 == k)).map (fun p => p.2)

/-- Python truthiness of `os.getenv(...)`: falsy iff the key is absent or
its value is the empty string. -/
def pyFalsyOptStr : Option String → Bool
  | none => true
  | some s => s == ""

/-! ## load_env -/

/-- Result of `load_env`: its boolean return value, the environment after
the call, and the lines it printed. -/
structure LoadEnvResult where
  ok : Bool
  env : Env
  output : List String
deriving DecidableEq

/-- One iteration of the loop in `load_env` (lines 27-33 of the source):
strip the line; if it is non-empty, does not start with `#` and contains
`=`, split on the first `=`, strip the key, strip the value and its
surrounding quotes, and assign into the environment; otherwise do nothing. -/
def processLine (env : Env) (rawLine : String) : Env :=
  let line := pyStrip rawLine
  if line != "" && !(startsWithHash line) && line.toList.contains '=' then
    let kv := splitFirstEq line
    env ++ [(pyStrip kv.1, stripQuotes (pyStrip kv.2))]
  else env

/-- The key/value pair a raw line contributes, if any: `some (k, v)` when the
loop body of `load_env` would perform `os.environ[k] = v` for this line. -/
def parsedEntry (rawLine : String) : Option (String × String) :=
  let line := pyStrip rawLine
  if line != "" && !(startsWithHash line) && line.toList.contains '=' then
    let kv := splitFirstEq line
    some (pyStrip kv.1, stripQuotes (pyStrip kv.2))
  else none

/-- `load_env(env_path)` (lines 16-34 of the source).  `file` is `none` when
`env_path.exists()` is false, otherwise the file's lines. -/
def load_env (env0 : Env) (envPath : String) (file : Option (List String)) :
    LoadEnvResult :=
  match file with
  | none =>
      ⟨false, env0,
       ["Loading environment from: " ++ envPath,
        "⛔ ERROR: Environment file not found at " ++ envPath,
        "Please run \x2701-setup-jenkins.sh\x27 first."]⟩
  | some lines =>
      ⟨true, lines.foldl processLine env0,
       ["Loading environment from: " ++ envPath]⟩

/-! ## verify_jenkins_api -/

/-- Outcome of `json.loads(response.read().decode())` followed by the two
dictionary lookups on the crumb response: either both fields, or a raised
exception. -/
inductive JsonCrumb where
  | ok (crumb : String) (crumbRequestField : String)
  | parseError (msg : String)
deriving DecidableEq

/-- Outcome of the crumb-issuer GET (`urlopen(crumb_url)`): an HTTP response
with a status and (decoded) body, a `urllib.error.URLError`, or any other
exception. -/
inductive CrumbOutcome where
  | http (status : Nat) (body : JsonCrumb)
  | urlError (msg : String)
  | otherError (msg : String)
deriving DecidableEq

/-- Outcome of the scriptText POST (`urlopen(req)`): an HTTP response with a
status and decoded body, a `urllib.error.URLError`, or any other exception. -/
inductive PostOutcome where
  | http (status : Nat) (body : String)
  | urlError (msg : String)
  | otherError (msg : String)
deriving DecidableEq

/-- Result of `verify_jenkins_api`: the Python return value (`none` models
Python `None`, reached by falling off the end of the function), the printed
lines, and whether the POST to the scriptText endpoint was attempted. -/
structure VerifyResult where
  ret : Option Bool
  output : List String
  postAttempted : Bool
deriving DecidableEq

/-- The diagnostic printed when the crumb GET raises `URLError`
(line 77 of the source): the host-file/DNS hint. -/
def hostsHint : String :=
  "⛔ ERROR: Connection failed. Did you add \x27127.0.0.1 jenkins\x27 to /etc/hosts?"

/-- `verify_jenkins_api(base_url, username, password)` (lines 37-113).
The credentials are fed to the auth handler only; they have no effect the
model observes.  The crumb GET happens first; on any failure there the
function prints a diagnostic and returns `False` without attempting the
POST.  The POST's `try` only has a generic `except Exception` handler, and
the function returns `None` on every path through it. -/
def verify_jenkins_api (base_url _username _password : String)
    (crumbRes : CrumbOutcome) (postRes : PostOutcome) : VerifyResult :=
  let out0 : List String :=
    ["Creating default SSL context...",
     "Connecting to " ++ base_url ++ " to fetch CSRF crumb..."]
  match crumbRes with
  | .urlError e =>
      ⟨some false, out0 ++ [hostsHint, "   Details: " ++ e], false⟩
  | .otherError e =>
      ⟨some false, out0 ++ ["⛔ ERROR: An unknown error occurred: " ++ e], false⟩
  | .http status body =>
      if status != 200 then
        ⟨some false,
         out0 ++ ["⛔ ERROR: Failed to get crumb. Status: " ++ toString status],
         false⟩
      else
        match body with
        | .parseError e =>
            ⟨some false, out0 ++ ["⛔ ERROR: An unknown error occurred: " ++ e], false⟩
        | .ok crumb _crumbHeader =>
            let out1 := out0 ++
              ["✅ Success! Got CSRF crumb: " ++ crumb,
               "Attempting authenticated API call (Groovy script)..."]
            match postRes with
            | .http pstatus pbody =>
                if pstatus == 200 then
                  ⟨none,
                   out1 ++ ["✅✅✅ Jenkins Verification SUCCESS! ✅✅✅",
                            "Authenticated API call returned: " ++ pbody],
                   true⟩
                else
                  ⟨none,
                   out1 ++ ["⛔ ERROR: API call failed. Status: " ++ toString pstatus,
                            "   Response: " ++ pbody],
                   true⟩
            | .urlError e =>
                ⟨none, out1 ++ ["⛔ ERROR: API call failed.", "   Details: " ++ e], true⟩
            | .otherError e =>
                ⟨none, out1 ++ ["⛔ ERROR: API call failed.", "   Details: " ++ e], true⟩

/-- Whether the crumb fetch succeeded: HTTP 200 and the JSON body yielded
both the crumb value and the header field name. -/
def crumbSuccess : CrumbOutcome → Bool
  | .http status (.ok _ _) => status == 200
  | _ => false

/-! ## The top-level `__main__` block -/

/-- Hardcoded configuration of the script (lines 12-13). -/
def JENKINS_URL : String := "https://jenkins:10400"

/-- Hardcoded admin user name (line 13). -/
def JENKINS_USER : String := "admin"

/-- Result of a whole run: the process exit status, everything printed, and
whether `verify_jenkins_api` was invoked. -/
structure MainResult where
  exitCode : Nat
  output : List String
  verifyInvoked : Bool
deriving DecidableEq

/-- The `__main__` block (lines 116-126): load the environment file, exit 1
if that fails; read `JENKINS_ADMIN_PASSWORD`, exit 1 if it is falsy;
otherwise call `verify_jenkins_api` and ignore its result (falling off the
end of the script exits 0). -/
def mainRun (env0 : Env) (envPath : String) (file : Option (List String))
    (crumbRes : CrumbOutcome) (postRes : PostOutcome) : MainResult :=
  let l := load_env env0 envPath file
  if !l.ok then
    ⟨1, l.output, false⟩
  else
    let pw := osGetenv l.env "JENKINS_ADMIN_PASSWORD"
    if pyFalsyOptStr pw then
      ⟨1, l.output ++
          ["⛔ ERROR: JENKINS_ADMIN_PASSWORD not found in \x27jenkins.env\x27"],
       false⟩
    else
      let v := verify_jenkins_api JENKINS_URL JENKINS_USER (pw.getD "") crumbRes postRes
      ⟨0, l.output ++ v.output, true⟩

/-! ## Spec-side description of the loader's per-line step -/

/-- Per-line step of the loader as the spec words it: trim whitespace; skip
the line when it is empty or begins with the comment marker; otherwise (when
it has an `=` at all) split on the first `=` into a key and a value, trim
both, strip surrounding quote characters from the value, and set the result
into the environment. -/
def specProcessLine (env : Env) (rawLine : String) : Env :=
  let line := pyStrip rawLine
  if line == "" then env
  else if startsWithHash line then env
  else if !(line.toList.contains '=') then env
  else
    let kv := splitFirstEq line
    env ++ [(pyStrip kv.1, stripQuotes (pyStrip kv.2))]

/-! ## Helper lemmas -/

theorem processLine_parsedEntry (env : Env) (l : String) :
    processLine env l = env ++ (parsedEntry l).toList := by
  simp only [processLine, parsedEntry]
  split <;> simp

theorem foldl_processLine_eq (ls : List String) (env : Env) :
    ls.foldl processLine env = env ++ ls.filterMap parsedEntry := by
  induction ls generalizing env with
  | nil => simp
  | cons l t ih =>
      simp only [List.foldl_cons, List.filterMap_cons, processLine_parsedEntry, ih]
      cases parsedEntry l <;> simp

theorem find?_append_of_none {α : Type} (p : α → Bool) (l1 l2 : List α)
    (h : l1.find? p = none) : (l1 ++ l2).find? p = l2.find? p := by
  rw [List.find?_append, h, Option.none_or]

theorem osGetenv_append_last (e1 e2 : Env) (k v : String)
    (h : ∀ p ∈ e2, p.1 ≠ k) :
    osGetenv (e1 ++ (k, v) :: e2) k = some v := by
  simp only [osGetenv, List.reverse_append, List.reverse_cons]
  rw [List.append_assoc]
  rw [find?_append_of_none]
  · simp [List.find?]
  · rw [List.find?_eq_none]
    intro p hp
    simp only [List.mem_reverse] at hp
    simpa using h p hp

theorem processLine_eq_specProcessLine : processLine = specProcessLine := by
  funext env rawLine
  simp only [processLine, specProcessLine]
  cases h1 : pyStrip rawLine == "" <;>
    cases h2 : startsWithHash (pyStrip rawLine) <;>
      cases h3 : (pyStrip rawLine).toList.contains '=' <;>
        simp [h1, h2, h3, bne]

theorem isPrefixOf_append_of (l l1 l2 : List Char)
    (h : List.isPrefixOf l l1 = true) : List.isPrefixOf l (l1 ++ l2) = true := by
  induction l generalizing l1 with
  | nil => simp [List.isPrefixOf]
  | cons c t ih =>
      cases l1 with
      | nil => simp [List.isPrefixOf] at h
      | cons d t1 =>
          simp only [List.cons_append, List.isPrefixOf, Bool.and_eq_true] at h ⊢
          exact ⟨h.1, ih t1 h.2⟩

theorem strToList_append (s t : String) : (s ++ t).toList = s.toList ++ t.toList := rfl

theorem isPrefixOf_self (l : List Char) : List.isPrefixOf l l = true := by
  induction l with
  | nil => rfl
  | cons c t ih => simp [List.isPrefixOf, ih]

theorem hasSubList_append_self (pre sub : List Char) :
    hasSubList sub (pre ++ sub) = true := by
  induction pre with
  | nil =>
      cases sub with
      | nil => rfl
      | cons c t => simp [hasSubList, isPrefixOf_self]
  | cons c rest ih =>
      simp [hasSubList, ih]

theorem pyFalsyOptStr_false_iff (o : Option String) :
    pyFalsyOptStr o = false ↔ ∃ p, o = some p ∧ p ≠ "" := by
  cases o with
  | none => simp [pyFalsyOptStr]
  | some s => simp [pyFalsyOptStr]

theorem strStartsWith_append (s1 s2 pre : String) (h : strStartsWith s1 pre = true) :
    strStartsWith (s1 ++ s2) pre = true := by
  simp only [strStartsWith, strToList_append] at h ⊢
  exact isPrefixOf_append_of _ _ _ h

theorem strContainsSub_append (s1 s2 : String) :
    strContainsSub (s1 ++ s2) s2 = true := by
  simp only [strContainsSub, strToList_append]
  exact hasSubList_append_self _ _

end JenkinsVerify

namespace JenkinsVerify

/-! ## Claim theorems -/

/-- C1: the process exits with status 1 exactly when the environment file is
missing or the JENKINS_ADMIN_PASSWORD key is absent or empty after loading;
in every other case — whatever the outcomes of the crumb fetch and the
script call — it exits with status 0, since the result of
verify_jenkins_api is ignored by the top-level code. -/
theorem exit_code_characterization (env0 : Env) (envPath : String)
    (file : Option (List String)) (cr : CrumbOutcome) (pr : PostOutcome) :
    (mainRun env0 envPath file cr pr).exitCode =
      if file = none ∨
         pyFalsyOptStr
           (osGetenv (load_env env0 envPath file).env "JENKINS_ADMIN_PASSWORD") = true
      then 1 else 0 := by
  cases file with
  | none => simp [mainRun, load_env]
  | some lines =>
      simp only [mainRun, load_env]
      by_cases hp : pyFalsyOptStr
          (osGetenv (lines.foldl processLine env0) "JENKINS_ADMIN_PASSWORD") = true <;>
        simp [hp]

/-- C2: the scriptText POST is attempted exactly when the crumb fetch
succeeded (HTTP 200 and both JSON fields present); on any crumb-fetch
failure, verify_jenkins_api prints an error diagnostic and returns False
without issuing the POST. -/
theorem crumb_failure_blocks_post (bu u p : String) (cr : CrumbOutcome)
    (pr : PostOutcome) :
    ((verify_jenkins_api bu u p cr pr).postAttempted = crumbSuccess cr) ∧
    (crumbSuccess cr = false →
      (verify_jenkins_api bu u p cr pr).ret = some false ∧
      ∃ line ∈ (verify_jenkins_api bu u p cr pr).output,
        strStartsWith line "⛔ ERROR" = true) := by
  cases cr with
  | urlError e =>
      refine ⟨rfl, fun _ => ⟨rfl, hostsHint, by simp [verify_jenkins_api], by decide⟩⟩
  | otherError e =>
      refine ⟨rfl, fun _ => ⟨rfl, "⛔ ERROR: An unknown error occurred: " ++ e,
        by simp [verify_jenkins_api], strStartsWith_append _ _ _ (by decide)⟩⟩
  | http s b =>
      by_cases hs : s = 200
      · subst hs
        cases b with
        | parseError e =>
            refine ⟨rfl, fun _ => ⟨rfl, "⛔ ERROR: An unknown error occurred: " ++ e,
              by simp [verify_jenkins_api], strStartsWith_append _ _ _ (by decide)⟩⟩
        | ok c ch =>
            refine ⟨?_, fun hcs => absurd hcs (by simp [crumbSuccess])⟩
            cases pr with
            | http ps pb =>
                by_cases hps : (ps == 200) = true <;>
                  simp [verify_jenkins_api, hps, crumbSuccess]
            | urlError e => simp [verify_jenkins_api, crumbSuccess]
            | otherError e => simp [verify_jenkins_api, crumbSuccess]
      · have hbne : ((s : Nat) != 200) = true := by simp [bne, hs]
        cases b with
        | parseError e =>
            refine ⟨by simp [verify_jenkins_api, hbne, crumbSuccess], fun _ => ?_⟩
            refine ⟨by simp [verify_jenkins_api, hbne],
              "⛔ ERROR: Failed to get crumb. Status: " ++ toString s,
              by simp [verify_jenkins_api, hbne], strStartsWith_append _ _ _ (by decide)⟩
        | ok c ch =>
            refine ⟨by simp [verify_jenkins_api, hbne, crumbSuccess, hs], fun _ => ?_⟩
            refine ⟨by simp [verify_jenkins_api, hbne],
              "⛔ ERROR: Failed to get crumb. Status: " ++ toString s,
              by simp [verify_jenkins_api, hbne], strStartsWith_append _ _ _ (by decide)⟩

/-- C3 (amended): a URLError during the crumb GET is caught, the
host-file/DNS hint is printed, and the function returns False without
attempting the POST; a URLError during the script POST is caught by the
generic Exception handler, a failure diagnostic with the error details —
but without the host-file/DNS hint — is printed, and the function returns
(None) without raising. -/
theorem url_error_handling (bu u p msg c h : String) (pr : PostOutcome) :
    ((verify_jenkins_api bu u p (CrumbOutcome.urlError msg) pr).ret = some false ∧
     hostsHint ∈ (verify_jenkins_api bu u p (CrumbOutcome.urlError msg) pr).output ∧
     (verify_jenkins_api bu u p (CrumbOutcome.urlError msg) pr).postAttempted = false) ∧
    ((verify_jenkins_api bu u p (CrumbOutcome.http 200 (JsonCrumb.ok c h))
        (PostOutcome.urlError msg)).ret = none ∧
     "⛔ ERROR: API call failed." ∈
       (verify_jenkins_api bu u p (CrumbOutcome.http 200 (JsonCrumb.ok c h))
         (PostOutcome.urlError msg)).output ∧
     ("   Details: " ++ msg) ∈
       (verify_jenkins_api bu u p (CrumbOutcome.http 200 (JsonCrumb.ok c h))
         (PostOutcome.urlError msg)).output) := by
  refine ⟨⟨rfl, by simp [verify_jenkins_api], rfl⟩,
          ⟨rfl, by simp [verify_jenkins_api], by simp [verify_jenkins_api]⟩⟩

/-- C3 counterexample: with a successful crumb fetch and a URLError on the
script POST, the run prints exactly the lines below — none of which
mentions /etc/hosts — refuting the claim that every URLError during either
network call yields a diagnostic with the host-file/DNS hint. -/
theorem post_url_error_prints_no_hint :
    verify_jenkins_api "https://jenkins:10400" "admin" "s3cret"
        (CrumbOutcome.http 200 (JsonCrumb.ok "abc" "Jenkins-Crumb"))
        (PostOutcome.urlError "connection refused") =
      ⟨none,
       ["Creating default SSL context...",
        "Connecting to https://jenkins:10400 to fetch CSRF crumb...",
        "✅ Success! Got CSRF crumb: abc",
        "Attempting authenticated API call (Groovy script)...",
        "⛔ ERROR: API call failed.",
        "   Details: connection refused"],
       true⟩ ∧
    (verify_jenkins_api "https://jenkins:10400" "admin" "s3cret"
        (CrumbOutcome.http 200 (JsonCrumb.ok "abc" "Jenkins-Crumb"))
        (PostOutcome.urlError "connection refused")).output.all
      (fun line => !(strContainsSub line "/etc/hosts")) = true := by
  refine ⟨by decide, by decide⟩

/-- C4: load_env processes every line of the file by the spec-side per-line
step (trim, skip empty and comment lines, split on the first `=`, trim key
and value, strip surrounding quotes from the value, set into the
environment), and in particular a KEY="value" line puts KEY ↦ value (quotes
stripped) into the environment. -/
theorem load_env_matches_spec :
    (∀ (env0 : Env) (envPath : String) (lines : List String),
        (load_env env0 envPath (some lines)).ok = true ∧
        (load_env env0 envPath (some lines)).env = lines.foldl specProcessLine env0) ∧
    osGetenv ((load_env [] "jenkins.env" (some ["KEY=\"value\""])).env) "KEY" =
      some "value" := by
  refine ⟨fun env0 envPath lines => ⟨rfl, ?_⟩, by decide⟩
  rw [← processLine_eq_specProcessLine]
  rfl

/-- C5: when the environment file does not exist, load_env reports the
condition and returns False, and the program exits with code 1 without
invoking verify_jenkins_api (hence without attempting any network call). -/
theorem missing_env_file (env0 : Env) (envPath : String)
    (cr : CrumbOutcome) (pr : PostOutcome) :
    (load_env env0 envPath none).ok = false ∧
    ("⛔ ERROR: Environment file not found at " ++ envPath) ∈
      (load_env env0 envPath none).output ∧
    (mainRun env0 envPath none cr pr).exitCode = 1 ∧
    (mainRun env0 envPath none cr pr).verifyInvoked = false := by
  exact ⟨rfl, by simp [load_env], rfl, rfl⟩

/-- C6: entries are applied in file order with no validation of the key, so
the lookup of a key after loading returns the value of the last line that
set it, regardless of the initial environment and of any earlier lines. -/
theorem duplicate_key_last_wins (env0 : Env) (envPath : String)
    (lines1 lines2 : List String) (line : String) (k v : String)
    (hline : parsedEntry line = some (k, v))
    (hafter : ∀ l ∈ lines2, ∀ v2, parsedEntry l ≠ some (k, v2)) :
    osGetenv ((load_env env0 envPath (some (lines1 ++ line :: lines2))).env) k =
      some v := by
  have henv : (load_env env0 envPath (some (lines1 ++ line :: lines2))).env =
      (env0 ++ lines1.filterMap parsedEntry) ++
        (k, v) :: lines2.filterMap parsedEntry := by
    show (lines1 ++ line :: lines2).foldl processLine env0 = _
    rw [foldl_processLine_eq]
    simp [List.filterMap_append, List.filterMap_cons, hline]
  rw [henv]
  apply osGetenv_append_last
  rintro ⟨pk, pv⟩ hp hk
  rcases List.mem_filterMap.mp hp with ⟨l, hl, hpl⟩
  simp only at hk
  subst hk
  exact hafter l hl pv hpl

/-- C6 witness: a file assigning JENKINS_ADMIN_PASSWORD twice ends with the
second value in the environment. -/
theorem duplicate_key_last_wins_witness :
    osGetenv ((load_env [] "jenkins.env"
        (some (["JENKINS_ADMIN_PASSWORD=first"] ++
               "JENKINS_ADMIN_PASSWORD=second" :: []))).env)
      "JENKINS_ADMIN_PASSWORD" = some "second" :=
  duplicate_key_last_wins [] "jenkins.env" ["JENKINS_ADMIN_PASSWORD=first"] []
    "JENKINS_ADMIN_PASSWORD=second" "JENKINS_ADMIN_PASSWORD" "second"
    (by decide) (fun l hl => absurd hl (List.not_mem_nil _))

/-- C7: verify_jenkins_api (and with it any network call) is invoked exactly
when load_env succeeded and the JENKINS_ADMIN_PASSWORD read from the loaded
environment is present and non-empty; otherwise the process exits first. -/
theorem secret_required_for_network (env0 : Env) (envPath : String)
    (file : Option (List String)) (cr : CrumbOutcome) (pr : PostOutcome) :
    (mainRun env0 envPath file cr pr).verifyInvoked = true ↔
      ((load_env env0 envPath file).ok = true ∧
       ∃ p, osGetenv (load_env env0 envPath file).env "JENKINS_ADMIN_PASSWORD" =
              some p ∧ p ≠ "") := by
  cases file with
  | none => simp [mainRun, load_env]
  | some lines =>
      rw [← pyFalsyOptStr_false_iff]
      simp only [mainRun, load_env]
      by_cases hp : pyFalsyOptStr
          (osGetenv (lines.foldl processLine env0) "JENKINS_ADMIN_PASSWORD") = true <;>
        simp [hp]

/-- C8: after a successful crumb fetch, an HTTP 200 script response makes
verify_jenkins_api print the success banner and a line containing the
returned script output (so a body "Welcome" yields a printed line
containing Welcome), while a non-200 response makes it print the status and
the response body as a failure report. -/
theorem script_post_reporting (bu u p c ch : String) (status : Nat) (body : String) :
    (status = 200 →
       "✅✅✅ Jenkins Verification SUCCESS! ✅✅✅" ∈
         (verify_jenkins_api bu u p (CrumbOutcome.http 200 (JsonCrumb.ok c ch))
           (PostOutcome.http status body)).output ∧
       ∃ line ∈ (verify_jenkins_api bu u p (CrumbOutcome.http 200 (JsonCrumb.ok c ch))
           (PostOutcome.http status body)).output,
         strContainsSub line body = true) ∧
    (status ≠ 200 →
       ("⛔ ERROR: API call failed. Status: " ++ toString status) ∈
         (verify_jenkins_api bu u p (CrumbOutcome.http 200 (JsonCrumb.ok c ch))
           (PostOutcome.http status body)).output ∧
       ("   Response: " ++ body) ∈
         (verify_jenkins_api bu u p (CrumbOutcome.http 200 (JsonCrumb.ok c ch))
           (PostOutcome.http status body)).output) := by
  constructor
  · intro hs
    subst hs
    refine ⟨by simp [verify_jenkins_api], "Authenticated API call returned: " ++ body,
      by simp [verify_jenkins_api], strContainsSub_append _ _⟩
  · intro hs
    have hps : ((status : Nat) == 200) = false := by simp [hs]
    exact ⟨by simp [verify_jenkins_api, hps], by simp [verify_jenkins_api, hps]⟩

/-- C9: verify_jenkins_api never returns a truthy value: its result is never
True, and on every path past a successful crumb fetch — full success
included — it returns None, so the caller cannot distinguish success from
failure via the return value. -/
theorem verify_never_truthy (bu u p : String) (cr : CrumbOutcome) (pr : PostOutcome) :
    (verify_jenkins_api bu u p cr pr).ret ≠ some true ∧
    (crumbSuccess cr = true → (verify_jenkins_api bu u p cr pr).ret = none) := by
  cases cr with
  | urlError e => exact ⟨by simp [verify_jenkins_api], fun h => by simp [crumbSuccess] at h⟩
  | otherError e => exact ⟨by simp [verify_jenkins_api], fun h => by simp [crumbSuccess] at h⟩
  | http s b =>
      by_cases hs : s = 200
      · subst hs
        cases b with
        | parseError e =>
            exact ⟨by simp [verify_jenkins_api], fun h => by simp [crumbSuccess] at h⟩
        | ok c ch =>
            have hret : (verify_jenkins_api bu u p
                (CrumbOutcome.http 200 (JsonCrumb.ok c ch)) pr).ret = none := by
              cases pr with
              | http ps pb =>
                  by_cases hps : (ps == 200) = true <;> simp [verify_jenkins_api, hps]
              | urlError e => rfl
              | otherError e => rfl
            exact ⟨by simp [hret], fun _ => hret⟩
      · have hbne : ((s : Nat) != 200) = true := by simp [bne, hs]
        cases b with
        | parseError e =>
            exact ⟨by simp [verify_jenkins_api, hbne], fun h => by simp [crumbSuccess] at h⟩
        | ok c ch =>
            exact ⟨by simp [verify_jenkins_api, hbne],
              fun h => absurd h (by simp [crumbSuccess, hs])⟩

/-- C10: a non-empty, non-comment line with no `=` character is silently
skipped: load_env still returns True, prints nothing extra, and its result
is the same as if the line were not in the file at all. -/
theorem no_equals_line_skipped (env0 : Env) (envPath : String)
    (lines1 lines2 : List String) (line : String)
    (h1 : pyStrip line ≠ "")
    (h2 : startsWithHash (pyStrip line) = false)
    (h3 : (pyStrip line).toList.contains '=' = false) :
    (load_env env0 envPath (some (lines1 ++ line :: lines2))).ok = true ∧
    load_env env0 envPath (some (lines1 ++ line :: lines2)) =
      load_env env0 envPath (some (lines1 ++ lines2)) := by
  have hpe : parsedEntry line = none := by
    simp only [parsedEntry]
    rw [h3, Bool.and_false]
    rfl
  have henv : (lines1 ++ line :: lines2).foldl processLine env0 =
      (lines1 ++ lines2).foldl processLine env0 := by
    rw [foldl_processLine_eq, foldl_processLine_eq]
    simp [List.filterMap_append, List.filterMap_cons, hpe]
  exact ⟨rfl, by simp [load_env, henv]⟩

/-- C10 witness: the line with no equals sign between two assignments is
skipped without failing the load. -/
theorem no_equals_line_skipped_witness :
    (load_env [] "jenkins.env" (some (["A=1"] ++ "no equals sign" :: ["B=2"]))).ok = true ∧
    load_env [] "jenkins.env" (some (["A=1"] ++ "no equals sign" :: ["B=2"])) =
      load_env [] "jenkins.env" (some (["A=1"] ++ ["B=2"])) :=
  no_equals_line_skipped [] "jenkins.env" ["A=1"] ["B=2"] "no equals sign"
    (by decide) (by decide) (by decide)

end JenkinsVerify
